import Mathlib

/-!
Shallow embedding of the `fast_backend` identity service (src/server.mjs with
the Prisma schema src/prisma/schema.prisma).

The database is modelled as explicit lists of rows (`Users` and `UserProfile`
tables), autoincrement ids as counters, and the module-level mutable object
`user_session_buffer` as an association list from token strings to the stored
value.  A stored value is an `Option User`: `some u` is a `User` row, `none` is
the JavaScript `null` that `prisma.users.findFirst` yields on no match and that
the session handler stores as-is.  An absent key models a token that was never
assigned (JavaScript `undefined` on property read).

Each JS function becomes a state-passing Lean function; `await`ed store calls
are synchronous here (single request at a time).  A thrown JS exception is an
`Except.error`; the error names follow the failure sites:
`Err.SessionNotFound` is the TypeError thrown by
`user_session_buffer[uuid].user_id` when the entry is `undefined` or `null`,
and `Err.StorageUnavailable` is a store-call failure.  `Err.ProfileNotFound`
is a taxonomy name with no throwing site in the code; it is declared so that
statements about it can be written down.
-/

/-- A row of the `Users` table (model `Users` in schema.prisma). -/
structure User where
  user_id : Nat
  username : String
  password : String
  permission : Int
  auth_method : String
deriving DecidableEq

/-- A row of the `UserProfile` table; the field `brithday` keeps the schema's
spelling, and timestamps are modelled as natural numbers. -/
structure UserProfile where
  profile_id : Nat
  gender : String
  brithday : Nat
  user_id : Nat
deriving DecidableEq

/-- The persistent store: both tables, the autoincrement counters, and the
current clock value (`new Date()` at the moment a request runs). -/
structure StoreState where
  users : List User
  profiles : List UserProfile
  nextUserId : Nat
  nextProfileId : Nat
  now : Nat
deriving DecidableEq

/-- Whole-process state: the store plus the module-level
`user_session_buffer` object. -/
structure ServerState where
  store : StoreState
  user_session_buffer : List (String × Option User)
deriving DecidableEq

/-- Error taxonomy for the failure sites of server.mjs (see module header). -/
inductive Err where
  | SessionNotFound
  | ProfileNotFound
  | StorageUnavailable
deriving DecidableEq

/-- Property read `obj[k]` on the session buffer: `none` is JavaScript
`undefined` (key never assigned), `some v` the stored value. -/
def lookupKey : List (String × Option User) → String → Option (Option User)
  | [], _ => none
  | (k', v') :: rest, k => if k' = k then some v' else lookupKey rest k

/-- Property write `obj[k] = v` on the session buffer: replaces the entry for
`k` when present, otherwise appends a new one. -/
def setKey : List (String × Option User) → String → Option User → List (String × Option User)
  | [], k, v => [(k, v)]
  | (k', v') :: rest, k, v => if k' = k then (k, v) :: rest else (k', v') :: setKey rest k v

/-- The `where: { username, password }` filter of `prisma.users.findFirst`:
literal, case-sensitive string equality on both fields. -/
def matchesAuth (username password : String) (u : User) : Bool :=
  u.username == username && u.password == password

/-- `get_user_by_auth(username, password)` (server.mjs lines 24-29):
`prisma.users.findFirst` scans the table in order and yields the first row
matching the filter, or `null`.  Read-only, so the state is passed through. -/
def get_user_by_auth (s : ServerState) (username password : String) :
    Option User × ServerState :=
  (s.store.users.find? (matchesAuth username password), s)

/-- `create_user(username, password, permission, auth_method)` (server.mjs
lines 31-41): `prisma.users.create` inserts a `Users` row with the next
autoincrement id, then `prisma.userProfile.create` inserts a `UserProfile` row
with `gender: "gay"`, `brithday: new Date()` and `user_id` connected to the new
user.  The JS function ends with `console.log(user)` and has no return
statement, so on success the returned value is `none` (JS `undefined`).
`profileOk` selects whether the second store call succeeds; when it fails the
exception propagates with the first insert already persisted (no rollback). -/
def create_user (profileOk : Bool) (s : ServerState) (username password : String)
    (permission : Int) (auth_method : String) :
    Except Err (Option User) × ServerState :=
  let u : User := ⟨s.store.nextUserId, username, password, permission, auth_method⟩
  let st1 : StoreState :=
    ⟨s.store.users ++ [u], s.store.profiles, s.store.nextUserId + 1,
     s.store.nextProfileId, s.store.now⟩
  if profileOk then
    let p : UserProfile := ⟨st1.nextProfileId, "gay", st1.now, u.user_id⟩
    let st2 : StoreState :=
      ⟨st1.users, st1.profiles ++ [p], st1.nextUserId, st1.nextProfileId + 1, st1.now⟩
    (Except.ok none, ⟨st2, s.user_session_buffer⟩)
  else
    (Except.error Err.StorageUnavailable, ⟨st1, s.user_session_buffer⟩)

/-- The session-registry read `user_session_buffer[uuid].user_id` (server.mjs
line 15): when the entry is `undefined` (never assigned) or `null` (stored
auth miss), reading `.user_id` throws, modelled as `Err.SessionNotFound`;
otherwise the stored `User` is produced.  The buffer is not modified. -/
def resolve (s : ServerState) (token : String) : Except Err User × ServerState :=
  match lookupKey s.user_session_buffer token with
  | some (some u) => (Except.ok u, s)
  | _ => (Except.error Err.SessionNotFound, s)

/-- `get_userprofile_by_uuid(uuid)` (server.mjs lines 14-22): reads the session
entry (throwing as in `resolve` when it is absent or null), then
`prisma.userProfile.findFirst` on `user_id`, returning the first matching
profile row or `null` — the `null` case is returned as-is, not raised. -/
def get_userprofile_by_uuid (s : ServerState) (uuid : String) :
    Except Err (Option UserProfile) × ServerState :=
  match resolve s uuid with
  | (Except.ok u, s1) =>
      (Except.ok (s1.store.profiles.find? (fun p => p.user_id == u.user_id)), s1)
  | (Except.error e, s1) => (Except.error e, s1)

/-- The registry-insert step of the session handler (server.mjs line 76):
`user_session_buffer[uuid] = result`, returning the token.  The generated
`uuidv4()` value is passed in as `token` to make the randomness explicit. -/
def issue (s : ServerState) (token : String) (identity : Option User) :
    String × ServerState :=
  (token, ⟨s.store, setKey s.user_session_buffer token identity⟩)

/-- Success body `{"uuid": uuid}` of POST /api/v1/user/session. -/
structure SessionBody where
  uuid : String
deriving DecidableEq

/-- Response body of GET /api/v1/user/:uuid: either the (possibly null)
profile lookup result, or the uniform `{"message": "Error", err}` body built
in the catch block. -/
inductive LookupResponse where
  | body (p : Option UserProfile)
  | errorBody (e : Err)
deriving DecidableEq

/-- Handler of POST /api/v1/user/session (server.mjs lines 70-83): generates a
uuid (passed in as `token`), authenticates, stores the result — whatever it
is, including `null` — under the uuid, and returns `{"uuid": uuid}`. -/
def handle_post_session (s : ServerState) (token username password : String) :
    SessionBody × ServerState :=
  let r := (get_user_by_auth s username password).1
  (⟨token⟩, (issue s token r).2)

/-- Handler of GET /api/v1/user/:uuid (server.mjs lines 43-55): returns the
lookup result on success and the uniform error body when the try block threw. -/
def handle_get_user (s : ServerState) (uuid : String) :
    LookupResponse × ServerState :=
  match get_userprofile_by_uuid s uuid with
  | (Except.ok r, s1) => (LookupResponse.body r, s1)
  | (Except.error e, s1) => (LookupResponse.errorBody e, s1)

/-! ## Concrete states used by witnesses and counterexamples -/

/-- Alice's `Users` row, as produced by registering alice on an empty store. -/
def aliceU : User := ⟨1, "alice", "p1", 0, "local"⟩

/-- An empty store with fresh counters and clock zero. -/
def emptyStore : StoreState := ⟨[], [], 1, 1, 0⟩

/-- Fresh process state: empty store, empty session buffer. -/
def s0 : ServerState := ⟨emptyStore, []⟩

/-- A state where alice is registered without a profile row and the token
"tok" is mapped to her identity. -/
def sNoProfile : ServerState := ⟨⟨[aliceU], [], 2, 1, 0⟩, [("tok", some aliceU)]⟩

/-! ## Helper lemmas on the association-list registry and on `List.find?` -/

/-- Writing a key then reading it back yields the written value. -/
theorem lookupKey_setKey_self (m : List (String × Option User)) (k : String)
    (v : Option User) : lookupKey (setKey m k v) k = some v := by
  induction m with
  | nil => simp [setKey, lookupKey]
  | cons hd tl ih =>
    obtain ⟨k', v'⟩ := hd
    by_cases h : k' = k
    · simp [setKey, h, lookupKey]
    · simp [setKey, h, lookupKey, ih]

/-- Writing one key leaves every other key's value unchanged. -/
theorem lookupKey_setKey_other (m : List (String × Option User)) (k k' : String)
    (v : Option User) (h : k' ≠ k) :
    lookupKey (setKey m k v) k' = lookupKey m k' := by
  induction m with
  | nil => simp [setKey, lookupKey, Ne.symm h]
  | cons hd tl ih =>
    obtain ⟨k'', v''⟩ := hd
    by_cases hk : k'' = k
    · subst hk
      simp [setKey, lookupKey, Ne.symm h]
    · simp only [setKey, if_neg hk, lookupKey]
      by_cases hk' : k'' = k'
      · simp [hk']
      · simp [hk', ih]

/-- `List.find?` yields a first match: the list splits as `l₁ ++ a :: l₂` with
nothing in `l₁` satisfying the filter. -/
theorem find?_first_split {α : Type} (p : α → Bool) (l : List α) (a : α)
    (h : l.find? p = some a) :
    p a = true ∧ ∃ l₁ l₂, l = l₁ ++ a :: l₂ ∧ ∀ x ∈ l₁, p x = false := by
  induction l with
  | nil => simp [List.find?] at h
  | cons hd tl ih =>
    by_cases hp : p hd
    · rw [List.find?_cons_of_pos _ hp] at h
      cases h
      exact ⟨hp, [], tl, by simp⟩
  
    · rw [List.find?_cons_of_neg _ (by simpa using hp)] at h
      obtain ⟨hpa, l₁, l₂, hsplit, hall⟩ := ih h
      refine ⟨hpa, hd :: l₁, l₂, by simp [hsplit], ?_⟩
      intro x hx
      rcases List.mem_cons.1 hx with rfl | hx
      · simpa using hp
      · exact hall x hx

/-! ## Claim theorems -/

/-- C1: `get_user_by_auth` is read-only and returns the first stored `Users`
row whose `username` and `password` fields are both literally (case-sensitive,
no normalization, no hashing) equal to the supplied values, and `none` (the
JS `null`) exactly when no row matches. -/
theorem get_user_by_auth_first_literal_match (s : ServerState)
    (username password : String) :
    (get_user_by_auth s username password).2 = s ∧
    ((get_user_by_auth s username password).1 = none →
      ∀ u ∈ s.store.users, ¬(u.username = username ∧ u.password = password)) ∧
    (∀ u, (get_user_by_auth s username password).1 = some u →
      (u.username = username ∧ u.password = password) ∧
      ∃ l₁ l₂, s.store.users = l₁ ++ u :: l₂ ∧
        ∀ v ∈ l₁, ¬(v.username = username ∧ v.password = password)) := by
  refine ⟨rfl, ?_, ?_⟩
  · intro h u hu
    have hx := List.find?_eq_none.1 (by simpa [get_user_by_auth] using h) u hu
    simpa [matchesAuth, Bool.and_eq_true, beq_iff_eq] using hx
  · intro u hu
    obtain ⟨hpa, l₁, l₂, hsplit, hall⟩ :=
      find?_first_split (matchesAuth username password) s.store.users u
        (by simpa [get_user_by_auth] using hu)
    refine ⟨by simpa [matchesAuth, Bool.and_eq_true, beq_iff_eq] using hpa,
      l₁, l₂, hsplit, ?_⟩
    intro v hv hcontra
    have hne := hall v hv
    simp [matchesAuth, hcontra.1, hcontra.2] at hne

/-- C1 witness: on a store holding exactly alice, authenticating with her
credentials leaves the state unchanged and returns her row. -/
theorem get_user_by_auth_first_literal_match_witness :
    (get_user_by_auth sNoProfile "alice" "p1").2 = sNoProfile ∧
    (get_user_by_auth sNoProfile "alice" "p1").1 = some aliceU :=
  ⟨(get_user_by_auth_first_literal_match sNoProfile "alice" "p1").1, rfl⟩

/-- C2: resolving a freshly issued token in the same process state returns
exactly the identity that was passed to `issue`. -/
theorem issue_resolve_roundtrip (s : ServerState) (token : String) (u : User) :
    (resolve (issue s token (some u)).2 (issue s token (some u)).1).1 =
      Except.ok u := by
  simp [issue, resolve, lookupKey_setKey_self]

/-- C3: a token absent from the session buffer (never issued) makes the
profile lookup fail with `SessionNotFound`, with no other outcome and no
state change. -/
theorem resolve_never_issued_session_not_found (s : ServerState) (token : String)
    (h : lookupKey s.user_session_buffer token = none) :
    get_userprofile_by_uuid s token = (Except.error Err.SessionNotFound, s) := by
  simp [get_userprofile_by_uuid, resolve, h]

/-- C3 witness: on a fresh process state, looking up a bogus token fails with
`SessionNotFound`. -/
theorem resolve_never_issued_witness :
    lookupKey s0.user_session_buffer "bogus-token" = none ∧
    get_userprofile_by_uuid s0 "bogus-token" = (Except.error Err.SessionNotFound, s0) :=
  ⟨rfl, resolve_never_issued_session_not_found s0 "bogus-token" rfl⟩

/-- C4: under the freshness assumption on the generated token, `issue` always
succeeds, returns a token not currently present in the registry, adds the new
mapping, overwrites no existing mapping, and leaves the store untouched. -/
theorem issue_fresh_adds_without_overwrite (s : ServerState) (token : String)
    (identity : Option User)
    (hfresh : lookupKey s.user_session_buffer token = none) :
    (issue s token identity).1 = token ∧
    lookupKey s.user_session_buffer (issue s token identity).1 = none ∧
    lookupKey (issue s token identity).2.user_session_buffer token = some identity ∧
    (∀ k, k ≠ token →
      lookupKey (issue s token identity).2.user_session_buffer k =
        lookupKey s.user_session_buffer k) ∧
    (issue s token identity).2.store = s.store := by
  refine ⟨rfl, hfresh, ?_, ?_, rfl⟩
  · simpa [issue] using lookupKey_setKey_self s.user_session_buffer token identity
  · intro k hk
    simpa [issue] using lookupKey_setKey_other s.user_session_buffer token k identity hk

/-- C4 witness: issuing the fresh token "tok" for alice on a fresh state
stores the new mapping. -/
theorem issue_fresh_witness :
    lookupKey s0.user_session_buffer "tok" = none ∧
    lookupKey (issue s0 "tok" (some aliceU)).2.user_session_buffer "tok" =
      some (some aliceU) :=
  ⟨rfl, (issue_fresh_adds_without_overwrite s0 "tok" (some aliceU) rfl).2.2.1⟩

/-- C5: a succeeding registration appends exactly one `Users` row and exactly
one `UserProfile` row; the profile's `user_id` equals the new user's id, its
gender is the fixed string and its `brithday` is the store clock's current
time. -/
theorem create_user_creates_one_profile (s : ServerState) (username password : String)
    (permission : Int) (auth_method : String) :
    (create_user true s username password permission auth_method).2.store.users =
      s.store.users ++ [⟨s.store.nextUserId, username, password, permission, auth_method⟩] ∧
    (create_user true s username password permission auth_method).2.store.profiles =
      s.store.profiles ++ [⟨s.store.nextProfileId, "gay", s.store.now, s.store.nextUserId⟩] := by
  constructor <;> simp [create_user]

/-- C6 counterexample: in `sNoProfile` the token "tok" resolves to alice and
no profile row carries her id, yet the lookup returns the success outcome
`Except.ok none` (a null body) instead of failing with `ProfileNotFound`. -/
theorem lookup_missing_profile_counterexample :
    lookupKey sNoProfile.user_session_buffer "tok" = some (some aliceU) ∧
    sNoProfile.store.profiles = [] ∧
    (get_userprofile_by_uuid sNoProfile "tok").1 = Except.ok none ∧
    (get_userprofile_by_uuid sNoProfile "tok").1 ≠ Except.error Err.ProfileNotFound := by
  refine ⟨rfl, rfl, rfl, ?_⟩
  intro h
  exact Except.noConfusion h

/-- C6 amended: when the token resolves to an identity but no profile row has
that identity's id, the lookup returns the success outcome `ok none` (the JS
`null` from `findFirst`, passed through) with the state unchanged; no
`ProfileNotFound` error is raised. -/
theorem lookup_missing_profile_returns_null (s : ServerState) (token : String)
    (u : User)
    (h1 : lookupKey s.user_session_buffer token = some (some u))
    (h2 : s.store.profiles.find? (fun p => p.user_id == u.user_id) = none) :
    get_userprofile_by_uuid s token = (Except.ok none, s) := by
  simp [get_userprofile_by_uuid, resolve, h1, h2]

/-- C6 amended witness: the amended statement instantiated at `sNoProfile`. -/
theorem lookup_missing_profile_returns_null_witness :
    lookupKey sNoProfile.user_session_buffer "tok" = some (some aliceU) ∧
    sNoProfile.store.profiles.find? (fun p => p.user_id == aliceU.user_id) = none ∧
    get_userprofile_by_uuid sNoProfile "tok" = (Except.ok none, sNoProfile) :=
  ⟨rfl, rfl, lookup_missing_profile_returns_null sNoProfile "tok" aliceU rfl rfl⟩

/-- C7 counterexample: registering alice on a fresh state creates her `Users`
row, but the call returns `ok none` (JS `undefined`, since `create_user` has
no return statement) — not the created identity. -/
theorem create_user_no_return_counterexample :
    (create_user true s0 "alice" "p1" 0 "local").2.store.users = [aliceU] ∧
    (create_user true s0 "alice" "p1" 0 "local").1 = Except.ok none ∧
    (create_user true s0 "alice" "p1" 0 "local").1 ≠ Except.ok (some aliceU) := by
  refine ⟨rfl, rfl, ?_⟩
  intro h
  injection h with h'
  exact Option.noConfusion h'

/-- C7 amended: a succeeding `create_user` call performs its two inserts but
returns no value (JS `undefined`) to its caller; the created identity is not
returned. -/
theorem create_user_returns_nothing (s : ServerState) (username password : String)
    (permission : Int) (auth_method : String) :
    (create_user true s username password permission auth_method).1 =
      Except.ok none := by
  simp [create_user]

/-- C8: when the profile insert fails after the user insert succeeded, the
exception propagates and the already-created `Users` row remains in the
store; no profile row is added and no rollback occurs. -/
theorem create_user_no_rollback (s : ServerState) (username password : String)
    (permission : Int) (auth_method : String) :
    (create_user false s username password permission auth_method).1 =
      Except.error Err.StorageUnavailable ∧
    (create_user false s username password permission auth_method).2.store.users =
      s.store.users ++ [⟨s.store.nextUserId, username, password, permission, auth_method⟩] ∧
    (create_user false s username password permission auth_method).2.store.profiles =
      s.store.profiles := by
  refine ⟨?_, ?_, ?_⟩ <;> simp [create_user]

/-- C9: for a token currently mapped to a valid identity, resolving twice in
succession returns the same identity both times and neither call changes the
process state. -/
theorem resolve_idempotent (s : ServerState) (token : String) (u : User)
    (h : lookupKey s.user_session_buffer token = some (some u)) :
    resolve s token = (Except.ok u, s) ∧
    resolve (resolve s token).2 token = (Except.ok u, s) := by
  have h1 : resolve s token = (Except.ok u, s) := by simp [resolve, h]
  refine ⟨h1, ?_⟩
  rw [h1]
  exact h1

/-- C9 witness: resolving "tok" twice on `sNoProfile` yields alice both
times with the state unchanged. -/
theorem resolve_idempotent_witness :
    lookupKey sNoProfile.user_session_buffer "tok" = some (some aliceU) ∧
    resolve sNoProfile "tok" = (Except.ok aliceU, sNoProfile) ∧
    resolve (resolve sNoProfile "tok").2 "tok" = (Except.ok aliceU, sNoProfile) :=
  ⟨rfl, (resolve_idempotent sNoProfile "tok" aliceU rfl).1,
    (resolve_idempotent sNoProfile "tok" aliceU rfl).2⟩

/-- C10: when authentication finds no matching user, the session handler
still returns the success body carrying the fresh token, stores the null
identity under that token, and a subsequent profile lookup with the token
yields the uniform error body instead of a profile. -/
theorem session_on_auth_miss_stores_null (s : ServerState)
    (token username password : String)
    (hnomatch : s.store.users.find? (matchesAuth username password) = none) :
    (handle_post_session s token username password).1 = ⟨token⟩ ∧
    lookupKey (handle_post_session s token username password).2.user_session_buffer
      token = some none ∧
    (handle_get_user (handle_post_session s token username password).2 token).1 =
      LookupResponse.errorBody Err.SessionNotFound := by
  have hr : (get_user_by_auth s username password).1 = none := hnomatch
  have hl : lookupKey
      (handle_post_session s token username password).2.user_session_buffer token =
      some none := by
    simp [handle_post_session, issue, hr, lookupKey_setKey_self]
  refine ⟨rfl, hl, ?_⟩
  simp [handle_get_user, get_userprofile_by_uuid, resolve, hl]

/-- C10 witness: on the empty store, a session created with wrong credentials
stores null under "tok" and the follow-up lookup returns the error body. -/
theorem session_on_auth_miss_witness :
    s0.store.users.find? (matchesAuth "alice" "wrong") = none ∧
    (handle_get_user (handle_post_session s0 "tok" "alice" "wrong").2 "tok").1 =
      LookupResponse.errorBody Err.SessionNotFound :=
  ⟨rfl, (session_on_auth_miss_stores_null s0 "tok" "alice" "wrong" rfl).2.2⟩
